import Mathlib

/-!
Shallow embedding of `airgradient_monitor` (src/src/main.rs), a periodic
telemetry bridge: it polls an AirGradient sensor, computes a US-EPA AQI from
the PM2.5 and PM10 readings, and writes a point to InfluxDB.

Modelling conventions:
* Rust `f64`/`f32` values are modelled as exact rationals `ℚ`; `i32`/`i64` as `ℤ`.
* A Rust panic (array index out of bounds, usize underflow) is modelled by
  `Option`: `none` is a panic that aborts the process, and is distinct from a
  recoverable `Except.error` (a Rust `Err`), which the poll loop catches.
* The network is an oracle: the outcome of the InfluxDB write is a parameter,
  and the model returns the list of write requests actually issued so that
  "no network call" is expressible.
-/

/-- One sensor snapshot, field for field the `AirGradientData` struct of
main.rs (all `i32` fields as `ℤ`, `f32` fields as `ℚ`). -/
structure AirGradientData where
  wifi : ℤ
  serialno : String
  rco2 : ℤ
  pm01 : ℤ
  pm02 : ℤ
  pm10 : ℤ
  pm003Count : ℤ
  atmp : ℚ
  rhum : ℤ
  atmpCompensated : ℚ
  rhumCompensated : ℤ
  tvocIndex : ℤ
  tvocRaw : ℤ
  noxIndex : ℤ
  noxRaw : ℤ
  boot : ℤ
  bootCount : ℤ
  ledMode : String
  firmware : String
  model : String
deriving Repr, DecidableEq

/-- The fixed AQI breakpoint array `AQI` of `compute_one_aqi`
(`[0.0, 50.0, 100.0, 150.0, 200.0, 300.0, 500.0]`); indices ≥ 7 are junk and
are never consulted: every read is guarded by the bounds check below. -/
def aqiBreaks : ℕ → ℚ
  | 0 => 0
  | 1 => 50
  | 2 => 100
  | 3 => 150
  | 4 => 200
  | 5 => 300
  | 6 => 500
  | _ => 0

/-- The `PM02` concentration breakpoint table of `compute_aqi`. -/
def PM02 : ℕ → ℚ
  | 0 => 0
  | 1 => 9
  | 2 => 35.4
  | 3 => 55.4
  | 4 => 125.4
  | 5 => 225.4
  | 6 => 325.4
  | _ => 0

/-- The `PM10` concentration breakpoint table of `compute_aqi`. -/
def PM10 : ℕ → ℚ
  | 0 => 0
  | 1 => 54
  | 2 => 154
  | 3 => 254
  | 4 => 354
  | 5 => 424
  | 6 => 604
  | _ => 0

/-- The `while i <= 6 && datum >= vector[i] { i = i + 1 }` scan of
`compute_one_aqi`, fuel-indexed.  The loop body runs at most 7 times
(`i = 0..6`), so fuel 8 computes the exact exit value of `i`.  Rust's `&&`
short-circuits, so `vector[i]` is only read when `i ≤ 6` and the in-bounds
read is total; the conjunction below yields the same exit index. -/
def scanGo (datum : ℚ) (vector : ℕ → ℚ) : ℕ → ℕ → ℕ
  | 0, i => i
  | fuel + 1, i =>
      if i ≤ 6 ∧ vector i ≤ datum then scanGo datum vector fuel (i + 1) else i

/-- The exit value of `i` in `compute_one_aqi`. -/
def aqiIndex (datum : ℚ) (vector : ℕ → ℚ) : ℕ :=
  scanGo datum vector 8 0

/-- Rust's saturating `as u32` cast from `f64`, on a nonnegative-or-negative
exact rational: negative values clamp to 0, values beyond `u32::MAX` clamp to
`u32::MAX`, the rest truncate toward zero (= floor for nonnegative input). -/
def truncU32 (q : ℚ) : ℕ :=
  if q < 0 then 0 else min (Int.toNat ⌊q⌋) 4294967295

/-- The interpolation expression of lines 139–140 of main.rs:
`(AQI[i] - AQI[i-1]) / (vector[i] - vector[i-1]) * (datum - vector[i-1]) + AQI[i-1]`. -/
def interpVal (datum : ℚ) (vector : ℕ → ℚ) (i : ℕ) : ℚ :=
  (aqiBreaks i - aqiBreaks (i - 1)) / (vector i - vector (i - 1)) *
    (datum - vector (i - 1)) + aqiBreaks (i - 1)

/-- `compute_one_aqi` of main.rs.  After the scan, the Rust code indexes
`AQI[i]`, `AQI[i-1]`, `vector[i]`, `vector[i-1]` unconditionally: when the
scan exits with `i = 7` the read `AQI[7]` is out of bounds (panic), and when
it exits with `i = 0` the usize subtraction `i - 1` underflows (panic in
debug; in release it wraps to `2^64 - 1`, an out-of-bounds index, also a
panic).  Both panics are `none`; in bounds (`1 ≤ i ≤ 6`) the result is the
interpolated value cast with `as u32`. -/
def compute_one_aqi (datum : ℚ) (vector : ℕ → ℚ) : Option ℕ :=
  let i := aqiIndex datum vector
  if 1 ≤ i ∧ i ≤ 6 then some (truncU32 (interpVal datum vector i)) else none

/-- `compute_aqi` of main.rs: `v = 0`, then `v = max(v, one_aqi(pm02, PM02))`,
then `v = max(v, one_aqi(pm10, PM10))`; the commented-out NOx line is absent.
A panic in the first call aborts before the second runs. -/
def compute_aqi (data : AirGradientData) : Option ℕ :=
  match compute_one_aqi (data.pm02 : ℚ) PM02 with
  | none => none
  | some a =>
      match compute_one_aqi (data.pm10 : ℚ) PM10 with
      | none => none
      | some b => some (max (max 0 a) b)

/-- A `{key, val}` static tag pair (`SettingsPair` in main.rs). -/
structure SettingsPair where
  key : String
  val : String
deriving Repr, DecidableEq

/-- `InfluxSettings` of main.rs.  Note: the struct in src/ has no `enable`
field. -/
structure InfluxSettings where
  token : String
  bucket : String
  org : String
  url : String
  tags : List SettingsPair
deriving Repr, DecidableEq

/-- The lazily constructed `influxdb2::Client` handle.
`Client::new(url, org, token)` is a pure local constructor that cannot touch
the network, so the handle is exactly its three arguments. -/
structure Client where
  url : String
  org : String
  token : String
deriving Repr, DecidableEq

/-- The `Influx` writer struct: configuration plus optional connection
handle. -/
structure Influx where
  cfg : InfluxSettings
  client : Option Client
deriving Repr, DecidableEq

/-- `Influx::new`. -/
def Influx.new (cfg : InfluxSettings) : Influx :=
  { cfg := cfg, client := none }

/-- `Influx::connect`: keeps an existing handle; otherwise constructs one from
the configuration (url, org, token); always returns `Ok(())`. -/
def Influx.connect (s : Influx) : Influx × Except String Unit :=
  match s.client with
  | some _ => (s, Except.ok ())
  | none =>
      ({ s with client := some ⟨s.cfg.url, s.cfg.org, s.cfg.token⟩ }, Except.ok ())

/-- `Influx::disconnect`: unconditionally drops the handle. -/
def Influx.disconnect (s : Influx) : Influx :=
  { s with client := none }

/-- A typed InfluxDB field value (`i64` or `f64`). -/
inductive FieldValue where
  | int (z : ℤ)
  | float (q : ℚ)
deriving Repr, DecidableEq

/-- The built `DataPoint` of the `influxdb2` crate: measurement name, fields
and tags in insertion order, and nanosecond timestamp. -/
structure DataPoint where
  measurement : String
  fields : List (String × FieldValue)
  tags : List (String × String)
  timestamp : ℤ
deriving Repr, DecidableEq

/-- The point built in `Influx::write_point`: the twelve `.field` calls, the
three identity `.tag` calls and `.timestamp`, then the fold appending one
`.tag` per configured static tag, in configuration order. -/
def buildPoint (data : AirGradientData) (aqi : ℕ) (now : ℤ)
    (cfg : InfluxSettings) : DataPoint :=
  { measurement := "airgradient"
    fields := [("rco2", FieldValue.int data.rco2),
      ("pm01", FieldValue.int data.pm01),
      ("pm02", FieldValue.int data.pm02),
      ("pm10", FieldValue.int data.pm10),
      ("pm003Count", FieldValue.int data.pm003Count),
      ("temp", FieldValue.float data.atmpCompensated),
      ("humidity", FieldValue.int data.rhumCompensated),
      ("tvoc", FieldValue.int data.tvocRaw),
      ("tvocIndex", FieldValue.int data.tvocIndex),
      ("nox", FieldValue.int data.noxRaw),
      ("noxIndex", FieldValue.int data.noxIndex),
      ("aqi", FieldValue.int (aqi : ℤ))]
    tags := [("firmware", data.firmware), ("model", data.model),
      ("serialno", data.serialno)] ++ cfg.tags.map (fun t => (t.key, t.val))
    timestamp := now }

/-- `Influx::write_point`.  `now` is the wall-clock nanosecond timestamp read
at the start of the call (`chrono::Utc::now().timestamp_nanos_opt()`), and
`writeErr` is the network oracle: `none` means the InfluxDB write succeeds,
`some e` that it fails with error `e`.  Returns the new writer state, the
propagated result, and the list of `(bucket, point)` write requests issued to
the database.  The builder's `build()` cannot fail here (fixed nonempty
measurement, nonempty fields) and the `unwrap` after `connect` cannot panic
(`connect` always installs a handle and never errors), so the model is
total. -/
def Influx.write_point (s : Influx) (data : AirGradientData) (aqi : ℕ)
    (now : ℤ) (writeErr : Option String) :
    Influx × Except String Unit × List (String × DataPoint) :=
  let s1 := (s.connect).1
  let point := buildPoint data aqi now s1.cfg
  match writeErr with
  | none => (s1, Except.ok (), [(s1.cfg.bucket, point)])
  | some e => (s1, Except.error e, [(s1.cfg.bucket, point)])

/-- `do_stuff` of main.rs.  `fetch` is the combined result of the HTTP GET and
the JSON parse (an oracle for the sensor collaborator).  The outer `Option` is
a panic: a `compute_aqi` abort is not a catchable `Err`. -/
def do_stuff (fetch : Except String AirGradientData) (now : ℤ)
    (writeErr : Option String) (s : Influx) :
    Option (Influx × Except String Unit) :=
  match fetch with
  | Except.error e => some (s, Except.error e)
  | Except.ok data =>
      match compute_aqi data with
      | none => none
      | some aqi =>
          let r := s.write_point data aqi now writeErr
          some (r.1, r.2.1)

/-- One iteration of the `loop` in `main`: run `do_stuff`; on `Err` log the
error and `disconnect`; on `Ok` keep the state; a panic (`none`) aborts the
process. -/
def loopStep (fetch : Except String AirGradientData) (now : ℤ)
    (writeErr : Option String) (s : Influx) : Option Influx :=
  match do_stuff fetch now writeErr s with
  | none => none
  | some (s1, Except.ok _) => some s1
  | some (s1, Except.error _) => some s1.disconnect

/-- Modelled from the spec: the later variant's `influxdb.enable` flag and its
gating of the writer are missing from src/ (the `InfluxSettings` struct in
main.rs has no `enable` field); spec §4.2 and §6 describe them.  These are the
source settings plus the `enable` boolean. -/
structure InfluxSettingsE where
  enable : Bool
  token : String
  bucket : String
  org : String
  url : String
  tags : List SettingsPair
deriving Repr, DecidableEq

/-- Modelled from the spec: writer state of the `enable`-flag variant. -/
structure InfluxE where
  cfg : InfluxSettingsE
  client : Option Client
deriving Repr, DecidableEq

/-- Forgets the `enable` flag. -/
def InfluxSettingsE.toSettings (cfg : InfluxSettingsE) : InfluxSettings :=
  { token := cfg.token, bucket := cfg.bucket, org := cfg.org, url := cfg.url,
    tags := cfg.tags }

/-- Modelled from the spec: `connect()` is a "no-op success if writing is
disabled by configuration"; otherwise it behaves as the source's connect. -/
def InfluxE.connect (s : InfluxE) : InfluxE × Except String Unit :=
  if s.cfg.enable = false then (s, Except.ok ())
  else
    match s.client with
    | some _ => (s, Except.ok ())
    | none =>
        ({ s with client := some ⟨s.cfg.url, s.cfg.org, s.cfg.token⟩ },
          Except.ok ())

/-- Modelled from the spec: `write_point` is a "no-op success if writing is
disabled" — no connection is established and no network request is issued;
otherwise it behaves as the source's write_point. -/
def InfluxE.write_point (s : InfluxE) (data : AirGradientData) (aqi : ℕ)
    (now : ℤ) (writeErr : Option String) :
    InfluxE × Except String Unit × List (String × DataPoint) :=
  if s.cfg.enable = false then (s, Except.ok (), [])
  else
    let s1 := (s.connect).1
    let point := buildPoint data aqi now s1.cfg.toSettings
    match writeErr with
    | none => (s1, Except.ok (), [(s1.cfg.bucket, point)])
    | some e => (s1, Except.error e, [(s1.cfg.bucket, point)])

/-- A concrete reading used in witnesses: PM2.5 = 9 (sub-index 50) and
PM10 = 154 (sub-index 100). -/
def sampleReading : AirGradientData :=
  { wifi := -50, serialno := "84fce612eff4", rco2 := 450, pm01 := 3,
    pm02 := 9, pm10 := 154, pm003Count := 100, atmp := 21.5, rhum := 40,
    atmpCompensated := 21.5, rhumCompensated := 40, tvocIndex := 50,
    tvocRaw := 31000, noxIndex := 1, noxRaw := 16000, boot := 1,
    bootCount := 1, ledMode := "co2", firmware := "3.1.1", model := "I-9PSL" }

/-- `sampleReading` with different NOx/VOC values but the same `pm02` and
`pm10`. -/
def sampleReading2 : AirGradientData :=
  { sampleReading with noxIndex := 77, noxRaw := 12345, tvocIndex := 200 }

/-- A reading with a negative PM2.5 concentration — the struct field is a
signed `i32`, so such a value survives type parsing. -/
def negReading : AirGradientData :=
  { sampleReading with pm02 := -1 }

/-- Concrete settings used in witnesses. -/
def sampleSettings : InfluxSettings :=
  { token := "tok", bucket := "airgradient", org := "home",
    url := "http://influx:8086", tags := [{ key := "location", val := "attic" }] }

/-- A freshly constructed (disconnected) writer used in witnesses. -/
def sampleWriter : Influx := Influx.new sampleSettings

/-- Modelled from the spec: concrete settings of the `enable`-flag variant
with writing disabled. -/
def sampleSettingsE : InfluxSettingsE :=
  { enable := false, token := "tok", bucket := "airgradient", org := "home",
    url := "http://influx:8086", tags := [] }

/-- A writer of the `enable`-flag variant with writing disabled. -/
def sampleWriterE : InfluxE := { cfg := sampleSettingsE, client := none }

theorem scanGo_zero (d : ℚ) (v : ℕ → ℚ) (i : ℕ) : scanGo d v 0 i = i := rfl

theorem scanGo_succ (d : ℚ) (v : ℕ → ℚ) (fuel i : ℕ) :
    scanGo d v (fuel + 1) i = if i ≤ 6 ∧ v i ≤ d then scanGo d v fuel (i + 1) else i := rfl

/-- The scan never moves `i` backwards. -/
theorem scanGo_le_self (d : ℚ) (v : ℕ → ℚ) :
    ∀ fuel i, i ≤ scanGo d v fuel i := by
  intro fuel
  induction fuel with
  | zero => intro i; exact Nat.le_refl i
  | succ fuel ih =>
      intro i
      rw [scanGo_succ]
      split
      · exact Nat.le_trans (Nat.le_succ i) (ih (i + 1))
      · exact Nat.le_refl i

/-- The scan advances `i` by at most `fuel`. -/
theorem scanGo_le_add (d : ℚ) (v : ℕ → ℚ) :
    ∀ fuel i, scanGo d v fuel i ≤ i + fuel := by
  intro fuel
  induction fuel with
  | zero => intro i; exact Nat.le_of_eq (scanGo_zero d v i)
  | succ fuel ih =>
      intro i
      rw [scanGo_succ]
      split
      · have := ih (i + 1)
        omega
      · omega

/-- Every index strictly below the scan's exit value passed the loop test. -/
theorem scanGo_below (d : ℚ) (v : ℕ → ℚ) :
    ∀ fuel i j, i ≤ j → j < scanGo d v fuel i → j ≤ 6 ∧ v j ≤ d := by
  intro fuel
  induction fuel with
  | zero =>
      intro i j hij hj
      rw [scanGo_zero] at hj
      omega
  | succ fuel ih =>
      intro i j hij hj
      rw [scanGo_succ] at hj
      split at hj
      · next hcond =>
          rcases Nat.eq_or_lt_of_le hij with h | h
          · subst h
            exact hcond
          · exact ih (i + 1) j h hj
      · next hcond => omega

/-- If the scan exits before exhausting its fuel, the exit index fails the
loop test. -/
theorem scanGo_stop (d : ℚ) (v : ℕ → ℚ) :
    ∀ fuel i, scanGo d v fuel i < i + fuel →
      ¬(scanGo d v fuel i ≤ 6 ∧ v (scanGo d v fuel i) ≤ d) := by
  intro fuel
  induction fuel with
  | zero =>
      intro i h
      rw [scanGo_zero] at h
      omega
  | succ fuel ih =>
      intro i h
      rw [scanGo_succ] at h ⊢
      split
      · next hc =>
          rw [if_pos hc] at h
          exact ih (i + 1) (by omega)
      · next hc => exact hc

/-- The scan exit index is at most 7: the test at `i = 7` fails `i ≤ 6`. -/
theorem aqiIndex_le_seven (d : ℚ) (v : ℕ → ℚ) : aqiIndex d v ≤ 7 := by
  have h8 := scanGo_le_add d v 8 0
  rcases Nat.lt_or_ge (scanGo d v 8 0) 8 with h | h
  · exact Nat.le_of_lt_succ h
  · exfalso
    have h7 : 7 < scanGo d v 8 0 := by omega
    have := scanGo_below d v 8 0 7 (Nat.zero_le 7) h7
    omega

/-- For a table starting at `0` and a nonnegative datum the scan exits with
`i ≥ 1`: the first test `datum >= vector[0]` passes. -/
theorem aqiIndex_pos (d : ℚ) (v : ℕ → ℚ) (hv0 : v 0 = 0) (hd : 0 ≤ d) :
    1 ≤ aqiIndex d v := by
  rcases Nat.lt_or_ge 0 (aqiIndex d v) with h | h
  · exact h
  · exfalso
    have hz : aqiIndex d v = 0 := by omega
    have hstop := scanGo_stop d v 8 0 (by unfold aqiIndex at hz; omega)
    rw [show scanGo d v 8 0 = aqiIndex d v from rfl, hz] at hstop
    exact hstop ⟨by omega, by rw [hv0]; exact hd⟩

/-- When the datum is below the top threshold the scan exits with `i ≤ 6`. -/
theorem aqiIndex_le_six (d : ℚ) (v : ℕ → ℚ) (hd6 : d < v 6) :
    aqiIndex d v ≤ 6 := by
  rcases Nat.lt_or_ge 6 (aqiIndex d v) with h | h
  · exfalso
    have := scanGo_below d v 8 0 6 (Nat.zero_le 6) h
    exact absurd this.2 (not_le.mpr hd6)
  · exact h

/-- When the scan exits in bounds, the datum is below the exit threshold. -/
theorem aqiIndex_upper (d : ℚ) (v : ℕ → ℚ) (h6 : aqiIndex d v ≤ 6) :
    d < v (aqiIndex d v) := by
  have hstop := scanGo_stop d v 8 0 (by unfold aqiIndex at h6; omega)
  rw [show scanGo d v 8 0 = aqiIndex d v from rfl] at hstop
  by_contra hle
  exact hstop ⟨h6, not_lt.mp hle⟩

/-- When the scan exits past index 0, the datum reached the previous
threshold. -/
theorem aqiIndex_lower (d : ℚ) (v : ℕ → ℚ) (h1 : 1 ≤ aqiIndex d v) :
    v (aqiIndex d v - 1) ≤ d := by
  have := scanGo_below d v 8 0 (aqiIndex d v - 1) (Nat.zero_le _)
    (by unfold aqiIndex at h1 ⊢; omega)
  exact this.2

/-- A strictly ascending 7-entry table is monotone on indices `0..6`. -/
theorem ascending_mono (v : ℕ → ℚ) (hasc : ∀ k, k < 6 → v k < v (k + 1)) :
    ∀ i j, i ≤ j → j ≤ 6 → v i ≤ v j := by
  intro i j
  induction j with
  | zero =>
      intro hij _
      have h0 : i = 0 := by omega
      rw [h0]
  | succ j ih =>
      intro hij hj
      rcases Nat.eq_or_lt_of_le hij with h | h
      · rw [h]
      · exact le_trans (ih (by omega) (by omega)) (le_of_lt (hasc j (by omega)))

/-- The `AQI` breakpoint array is monotone on indices `0..6`. -/
theorem aqiBreaks_mono : ∀ i j, i ≤ j → j ≤ 6 → aqiBreaks i ≤ aqiBreaks j := by
  intro i j hij hj
  interval_cases j <;> interval_cases i <;> norm_num [aqiBreaks]

/-- The saturating `as u32` cast is monotone. -/
theorem truncU32_mono (q1 q2 : ℚ) (h : q1 ≤ q2) : truncU32 q1 ≤ truncU32 q2 := by
  unfold truncU32
  split
  · exact Nat.zero_le _
  · next h1 =>
      rw [if_neg (by intro h2; exact h1 (lt_of_le_of_lt h h2))]
      exact min_le_min (Int.toNat_le_toNat (Int.floor_le_floor h)) (le_refl _)

theorem compute_one_aqi_def (d : ℚ) (v : ℕ → ℚ) :
    compute_one_aqi d v =
      if 1 ≤ aqiIndex d v ∧ aqiIndex d v ≤ 6 then
        some (truncU32 (interpVal d v (aqiIndex d v)))
      else none := rfl

/-- Unpacks a successful `compute_one_aqi` run: the scan exited in bounds and
the value is the truncated interpolation at the exit index. -/
theorem compute_one_aqi_eq_some (d : ℚ) (v : ℕ → ℚ) (a : ℕ)
    (h : compute_one_aqi d v = some a) :
    1 ≤ aqiIndex d v ∧ aqiIndex d v ≤ 6 ∧
      a = truncU32 (interpVal d v (aqiIndex d v)) := by
  rw [compute_one_aqi_def] at h
  split at h
  · next hc => exact ⟨hc.1, hc.2, (Option.some_inj.mp h).symm⟩
  · exact absurd h (by simp)

/-- Within one bracket the interpolation is monotone in the datum. -/
theorem interpVal_mono_same (v : ℕ → ℚ) (i : ℕ) (h1 : 1 ≤ i) (h6 : i ≤ 6)
    (hvlt : v (i - 1) < v i) (c1 c2 : ℚ) (h : c1 ≤ c2) :
    interpVal c1 v i ≤ interpVal c2 v i := by
  unfold interpVal
  have hslope : 0 ≤ (aqiBreaks i - aqiBreaks (i - 1)) / (v i - v (i - 1)) := by
    apply div_nonneg
    · have := aqiBreaks_mono (i - 1) i (by omega) h6
      linarith
    · linarith
  have := mul_le_mul_of_nonneg_left (sub_le_sub_right h (v (i - 1))) hslope
  linarith

/-- Below the bracket's upper threshold, the interpolation stays below the
bracket's upper AQI value. -/
theorem interpVal_le_top (v : ℕ → ℚ) (i : ℕ) (h1 : 1 ≤ i) (h6 : i ≤ 6)
    (hvlt : v (i - 1) < v i) (c : ℚ) (hc : c ≤ v i) :
    interpVal c v i ≤ aqiBreaks i := by
  unfold interpVal
  have hA : 0 ≤ aqiBreaks i - aqiBreaks (i - 1) := by
    have := aqiBreaks_mono (i - 1) i (by omega) h6
    linarith
  have hslope : 0 ≤ (aqiBreaks i - aqiBreaks (i - 1)) / (v i - v (i - 1)) :=
    div_nonneg hA (by linarith)
  have hkey : (aqiBreaks i - aqiBreaks (i - 1)) / (v i - v (i - 1)) *
      (c - v (i - 1)) ≤ (aqiBreaks i - aqiBreaks (i - 1)) / (v i - v (i - 1)) *
      (v i - v (i - 1)) :=
    mul_le_mul_of_nonneg_left (by linarith) hslope
  have hcancel : (aqiBreaks i - aqiBreaks (i - 1)) / (v i - v (i - 1)) *
      (v i - v (i - 1)) = aqiBreaks i - aqiBreaks (i - 1) :=
    div_mul_cancel₀ _ (by intro h0; rw [sub_eq_zero] at h0; exact absurd h0.symm (ne_of_lt hvlt))
  linarith

/-- At or above the bracket's lower threshold, the interpolation stays at or
above the bracket's lower AQI value. -/
theorem interpVal_ge_bot (v : ℕ → ℚ) (i : ℕ) (h1 : 1 ≤ i) (h6 : i ≤ 6)
    (hvlt : v (i - 1) < v i) (c : ℚ) (hc : v (i - 1) ≤ c) :
    aqiBreaks (i - 1) ≤ interpVal c v i := by
  unfold interpVal
  have hA : 0 ≤ aqiBreaks i - aqiBreaks (i - 1) := by
    have := aqiBreaks_mono (i - 1) i (by omega) h6
    linarith
  have hslope : 0 ≤ (aqiBreaks i - aqiBreaks (i - 1)) / (v i - v (i - 1)) :=
    div_nonneg hA (by linarith)
  have := mul_nonneg hslope (by linarith : (0 : ℚ) ≤ c - v (i - 1))
  linarith

/-- Two in-bounds scans of the same table order their exit indices by datum. -/
theorem aqiIndex_mono (v : ℕ → ℚ) (c1 c2 : ℚ) (h12 : c1 ≤ c2)
    (h2six : aqiIndex c2 v ≤ 6) : aqiIndex c1 v ≤ aqiIndex c2 v := by
  by_contra hlt
  push_neg at hlt
  have hup := aqiIndex_upper c2 v h2six
  have hbelow := scanGo_below c1 v 8 0 (aqiIndex c2 v) (Nat.zero_le _)
    (by unfold aqiIndex at hlt ⊢; omega)
  exact absurd (le_trans hbelow.2 h12) (not_le.mpr hup)

/-- A negative datum fails the very first loop test, so the scan exits with
`i = 0`. -/
theorem aqiIndex_eq_zero_of_neg (d : ℚ) (v : ℕ → ℚ) (hv0 : v 0 = 0)
    (hd : d < 0) : aqiIndex d v = 0 := by
  rcases Nat.eq_zero_or_pos (aqiIndex d v) with h | h
  · exact h
  · exfalso
    have := scanGo_below d v 8 0 0 (Nat.le_refl 0)
      (by have h' : 0 < scanGo d v 8 0 := h; omega)
    rw [hv0] at this
    exact absurd this.2 (not_le.mpr hd)

/-- On a negative datum `compute_one_aqi` panics (`AQI[i-1]` with `i = 0`). -/
theorem compute_one_aqi_neg (d : ℚ) (v : ℕ → ℚ) (hv0 : v 0 = 0) (hd : d < 0) :
    compute_one_aqi d v = none := by
  rw [compute_one_aqi_def, aqiIndex_eq_zero_of_neg d v hv0 hd]
  simp

/-- `connect` never changes the configuration. -/
theorem connect_cfg (s : Influx) : ((s.connect).1).cfg = s.cfg := by
  cases h : s.client <;> simp [Influx.connect, h]

/-- C1 — the claim fails on the code: at `datum = 325.4` (the PM2.5 top
threshold `vector[6]`, a nonnegative datum) the iteration does run past
index 6 and exits with `i = 7`, and the read `AQI[7]` is then out of bounds —
a panic (`none`) — instead of the clamp to `i = 6` that the claim
describes. -/
theorem C1_top_threshold_runs_past :
    aqiIndex (325.4 : ℚ) PM02 = 7 ∧ compute_one_aqi (325.4 : ℚ) PM02 = none := by
  have hidx : aqiIndex (325.4 : ℚ) PM02 = 7 := by
    norm_num [aqiIndex, scanGo_succ, scanGo_zero, PM02]
  refine ⟨hidx, ?_⟩
  rw [compute_one_aqi_def, hidx]
  simp

/-- C2: `compute_one_aqi` interpolates linearly within the selected bracket
and truncates the result toward zero: 0.0 ↦ 0 and 9.0 ↦ 50 (exact
concentration breakpoints map to exact AQI breakpoints), and a PM2.5
concentration of 12.0 ↦ 55 (50 + 50/26.4·3 ≈ 55.68, truncated to 55). -/
theorem C2_exact_breakpoints_and_interpolation :
    compute_one_aqi 0 PM02 = some 0 ∧ compute_one_aqi 9 PM02 = some 50 ∧
      compute_one_aqi 12 PM02 = some 55 := by
  refine ⟨?_, ?_, ?_⟩ <;>
    norm_num [compute_one_aqi_def, aqiIndex, scanGo_succ, scanGo_zero, PM02,
      interpVal, truncU32, aqiBreaks] <;>
    rfl

/-- C3: `compute_aqi` is exactly the maximum of the PM2.5 sub-index on the
`pm02` field and the PM10 sub-index on the `pm10` field; a reading agreeing on
those two fields but differing elsewhere (in particular in NOx) yields the
same result. -/
theorem C3_max_of_two_subindices (data other : AirGradientData) (a b : ℕ)
    (h02 : compute_one_aqi (data.pm02 : ℚ) PM02 = some a)
    (h10 : compute_one_aqi (data.pm10 : ℚ) PM10 = some b)
    (hp2 : other.pm02 = data.pm02) (hp10 : other.pm10 = data.pm10) :
    compute_aqi data = some (max a b) ∧ compute_aqi other = compute_aqi data := by
  constructor
  · simp only [compute_aqi, h02, h10, Nat.zero_max]
  · simp only [compute_aqi, hp2, hp10]

/-- Witness for C3 at `sampleReading` (PM2.5 = 9 ↦ 50, PM10 = 154 ↦ 100) and
`sampleReading2` (same particulates, different NOx/VOC). -/
theorem C3_max_of_two_subindices_witness :
    compute_aqi sampleReading = some (max 50 100) ∧
      compute_aqi sampleReading2 = compute_aqi sampleReading :=
  C3_max_of_two_subindices sampleReading sampleReading2 50 100
    (by norm_num [sampleReading, compute_one_aqi_def, aqiIndex, scanGo_succ,
      scanGo_zero, PM02, interpVal, truncU32, aqiBreaks] <;> rfl)
    (by norm_num [sampleReading, compute_one_aqi_def, aqiIndex, scanGo_succ,
      scanGo_zero, PM10, interpVal, truncU32, aqiBreaks] <;> rfl)
    rfl rfl

/-- C4 (modelled from the spec; the `enable` flag is absent from src/): with
`enable = false`, `connect` and `write_point` both return success, leave the
writer state (hence the absent connection handle) untouched, and issue no
network request. -/
theorem C4_disabled_writer_noop (s : InfluxE) (data : AirGradientData)
    (aqi : ℕ) (now : ℤ) (werr : Option String) (hdis : s.cfg.enable = false) :
    s.connect = (s, Except.ok ()) ∧
      s.write_point data aqi now werr = (s, Except.ok (), []) := by
  unfold InfluxE.connect InfluxE.write_point
  rw [hdis]
  simp

/-- Witness for C4 at the concrete disabled writer. -/
theorem C4_disabled_writer_noop_witness :
    sampleWriterE.connect = (sampleWriterE, Except.ok ()) ∧
      sampleWriterE.write_point sampleReading 55 1700000000000000000 none =
        (sampleWriterE, Except.ok (), []) :=
  C4_disabled_writer_noop sampleWriterE sampleReading 55 1700000000000000000
    none rfl

/-- C6: for concentrations within a pollutant's breakpoint range (nonnegative
and below the top threshold `vector[6]`, over any strictly ascending table
starting at 0 — both PM tables qualify), `compute_one_aqi` is monotonically
non-decreasing: `c1 ≤ c2` implies the returned sub-indices are ordered. -/
theorem C6_monotone (v : ℕ → ℚ) (hasc : ∀ k, k < 6 → v k < v (k + 1))
    (hv0 : v 0 = 0) (c1 c2 : ℚ) (hc1 : 0 ≤ c1) (h12 : c1 ≤ c2)
    (htop : c2 < v 6) (a1 a2 : ℕ)
    (e1 : compute_one_aqi c1 v = some a1)
    (e2 : compute_one_aqi c2 v = some a2) : a1 ≤ a2 := by
  obtain ⟨h1a, h1b, h1v⟩ := compute_one_aqi_eq_some c1 v a1 e1
  obtain ⟨h2a, h2b, h2v⟩ := compute_one_aqi_eq_some c2 v a2 e2
  rw [h1v, h2v]
  apply truncU32_mono
  have hvlt1 : v (aqiIndex c1 v - 1) < v (aqiIndex c1 v) := by
    have h := hasc (aqiIndex c1 v - 1) (by omega)
    rwa [Nat.sub_add_cancel h1a] at h
  have hvlt2 : v (aqiIndex c2 v - 1) < v (aqiIndex c2 v) := by
    have h := hasc (aqiIndex c2 v - 1) (by omega)
    rwa [Nat.sub_add_cancel h2a] at h
  have hord : aqiIndex c1 v ≤ aqiIndex c2 v := aqiIndex_mono v c1 c2 h12 h2b
  rcases Nat.eq_or_lt_of_le hord with heq | hlt
  · rw [heq]
    exact interpVal_mono_same v (aqiIndex c2 v) (heq ▸ h1a) h2b hvlt2 c1 c2 h12
  · have step1 : interpVal c1 v (aqiIndex c1 v) ≤ aqiBreaks (aqiIndex c1 v) :=
      interpVal_le_top v (aqiIndex c1 v) h1a h1b hvlt1 c1
        (le_of_lt (aqiIndex_upper c1 v h1b))
    have step2 : aqiBreaks (aqiIndex c1 v) ≤ aqiBreaks (aqiIndex c2 v - 1) :=
      aqiBreaks_mono _ _ (by omega) (by omega)
    have step3 : aqiBreaks (aqiIndex c2 v - 1) ≤ interpVal c2 v (aqiIndex c2 v) :=
      interpVal_ge_bot v (aqiIndex c2 v) h2a h2b hvlt2 c2
        (aqiIndex_lower c2 v h2a)
    linarith

/-- Witness for C6 on the PM2.5 table at `c1 = 3 ↦ 16` and `c2 = 12 ↦ 55`. -/
theorem C6_monotone_witness :
    compute_one_aqi 3 PM02 = some 16 ∧ compute_one_aqi 12 PM02 = some 55 ∧
      16 ≤ 55 := by
  have e1 : compute_one_aqi 3 PM02 = some 16 := by
    norm_num [compute_one_aqi_def, aqiIndex, scanGo_succ, scanGo_zero, PM02,
      interpVal, truncU32, aqiBreaks] <;> rfl
  have e2 : compute_one_aqi 12 PM02 = some 55 := by
    norm_num [compute_one_aqi_def, aqiIndex, scanGo_succ, scanGo_zero, PM02,
      interpVal, truncU32, aqiBreaks] <;> rfl
  refine ⟨e1, e2, ?_⟩
  exact C6_monotone PM02 (by intro k hk; interval_cases k <;> norm_num [PM02])
    rfl 3 12 (by norm_num) (by norm_num) (by norm_num [PM02]) 16 55 e1 e2

/-- C7: `connect` always succeeds; a second `connect` after a successful one
returns the very same state (the existing handle is kept, no new handle is
constructed); `disconnect` leaves the writer Disconnected; and a
`write_point` after a `disconnect` re-constructs the handle from the
configuration through its internal `connect` call. -/
theorem C7_connect_idempotent_disconnect_resets (s : Influx)
    (data : AirGradientData) (aqi : ℕ) (now : ℤ) (werr : Option String) :
    (s.connect).2 = Except.ok () ∧
      ((s.connect).1).connect = ((s.connect).1, Except.ok ()) ∧
      (s.disconnect).client = none ∧
      (((s.disconnect).write_point data aqi now werr).1).client =
        some { url := s.cfg.url, org := s.cfg.org, token := s.cfg.token } := by
  refine ⟨?_, ?_, rfl, ?_⟩
  · cases h : s.client <;> simp [Influx.connect, h]
  · cases h : s.client <;> simp [Influx.connect, h]
  · cases werr <;> rfl

/-- C8: a failed database write propagates its error to the caller and leaves
the writer exactly as its internal `connect` left it — still holding a handle,
no auto-disconnect; it is the poll loop that calls `disconnect` on the error,
so the next cycle starts Disconnected and re-establishes the connection. -/
theorem C8_write_failure_propagates (s : Influx) (data : AirGradientData)
    (aqi : ℕ) (now : ℤ) (e : String) (haqi : compute_aqi data = some aqi) :
    (s.write_point data aqi now (some e)).2.1 = Except.error e ∧
      (s.write_point data aqi now (some e)).1 = (s.connect).1 ∧
      (((s.write_point data aqi now (some e)).1).client).isSome = true ∧
      loopStep (Except.ok data) now (some e) s =
        some (((s.write_point data aqi now (some e)).1).disconnect) ∧
      ((((s.write_point data aqi now (some e)).1).disconnect).client) = none := by
  refine ⟨rfl, rfl, ?_, ?_, rfl⟩
  · cases h : s.client <;> simp [Influx.write_point, Influx.connect, h]
  · simp only [loopStep, do_stuff, haqi, Influx.write_point]

/-- Witness for C8 at the concrete disconnected writer and `sampleReading`
(overall AQI 100), with a failing write. -/
theorem C8_write_failure_propagates_witness :
    compute_aqi sampleReading = some 100 ∧
      ((sampleWriter.write_point sampleReading 100 7 (some "io error")).2.1 =
          Except.error "io error" ∧
        (sampleWriter.write_point sampleReading 100 7 (some "io error")).1 =
          (sampleWriter.connect).1 ∧
        (((sampleWriter.write_point sampleReading 100 7
            (some "io error")).1).client).isSome = true ∧
        loopStep (Except.ok sampleReading) 7 (some "io error") sampleWriter =
          some (((sampleWriter.write_point sampleReading 100 7
            (some "io error")).1).disconnect) ∧
        ((((sampleWriter.write_point sampleReading 100 7
            (some "io error")).1).disconnect).client) = none) := by
  have haqi : compute_aqi sampleReading = some 100 := by
    norm_num [compute_aqi, sampleReading, compute_one_aqi_def, aqiIndex,
      scanGo_succ, scanGo_zero, PM02, PM10, interpVal, truncU32, aqiBreaks] <;>
      rfl
  exact ⟨haqi, C8_write_failure_propagates sampleWriter sampleReading 100 7
    "io error" haqi⟩

/-- C9: every `write_point` run issues exactly one request — the configured
bucket and one point whose measurement name is "airgradient", whose tag list
is the three identity tags (firmware, model, serialno) taken from the reading
followed by the configured static tags, and whose timestamp is the nanosecond
instant `now` sampled at write time (the reading carries no timestamp at
all). -/
theorem C9_single_point_shape (s : Influx) (data : AirGradientData) (aqi : ℕ)
    (now : ℤ) (werr : Option String) :
    (s.write_point data aqi now werr).2.2 =
        [(s.cfg.bucket, buildPoint data aqi now s.cfg)] ∧
      (buildPoint data aqi now s.cfg).measurement = "airgradient" ∧
      (buildPoint data aqi now s.cfg).tags =
        [("firmware", data.firmware), ("model", data.model),
          ("serialno", data.serialno)] ++
          s.cfg.tags.map (fun t => (t.key, t.val)) ∧
      (buildPoint data aqi now s.cfg).timestamp = now := by
  refine ⟨?_, rfl, rfl, rfl⟩
  cases h : s.client <;> cases werr <;>
    simp [Influx.write_point, Influx.connect, h]

/-- C10: `compute_one_aqi` returns a value (instead of panicking) exactly for
`0 ≤ datum < vector[6]`; a negative datum leaves the scan at `i = 0`, where
the `AQI[i-1]` usize subtraction underflows, a panic; and because `pm02` is a
signed `i32` with no further validation, a reading with a negative
concentration reaches `compute_aqi` inside `do_stuff` and aborts the process
(`none`) instead of flowing into the loop's log-and-continue `Err` path. -/
theorem C10_panic_domain (v : ℕ → ℚ) (hasc : ∀ k, k < 6 → v k < v (k + 1))
    (hv0 : v 0 = 0) (datum : ℚ) (r : AirGradientData) (now : ℤ)
    (w : Option String) (s : Influx) (hneg : r.pm02 < 0) :
    ((compute_one_aqi datum v).isSome ↔ 0 ≤ datum ∧ datum < v 6) ∧
      (datum < 0 → aqiIndex datum v = 0) ∧
      do_stuff (Except.ok r) now w s = none := by
  refine ⟨⟨?_, ?_⟩, ?_, ?_⟩
  · intro hs
    rw [compute_one_aqi_def] at hs
    by_cases hc : 1 ≤ aqiIndex datum v ∧ aqiIndex datum v ≤ 6
    · constructor
      · have h0 := scanGo_below datum v 8 0 0 (Nat.le_refl 0)
          (by have h1 : 1 ≤ scanGo datum v 8 0 := hc.1; omega)
        rw [hv0] at h0
        exact h0.2
      · exact lt_of_lt_of_le (aqiIndex_upper datum v hc.2)
          (ascending_mono v hasc _ 6 hc.2 (Nat.le_refl 6))
    · rw [if_neg hc] at hs
      simp at hs
  · rintro ⟨hd0, hd6⟩
    rw [compute_one_aqi_def,
      if_pos ⟨aqiIndex_pos datum v hv0 hd0, aqiIndex_le_six datum v hd6⟩]
    simp
  · intro hd
    exact aqiIndex_eq_zero_of_neg datum v hv0 hd
  · have hq : ((r.pm02 : ℚ)) < 0 := by exact_mod_cast hneg
    have hnone : compute_one_aqi (r.pm02 : ℚ) PM02 = none :=
      compute_one_aqi_neg _ _ rfl hq
    simp only [do_stuff, compute_aqi, hnone]

/-- Witness for C10 at `datum = -1` on the PM2.5 table and the concrete
negative reading. -/
theorem C10_panic_domain_witness :
    ((compute_one_aqi (-1) PM02).isSome ↔ 0 ≤ (-1 : ℚ) ∧ (-1 : ℚ) < PM02 6) ∧
      ((-1 : ℚ) < 0 → aqiIndex (-1) PM02 = 0) ∧
      do_stuff (Except.ok negReading) 0 none sampleWriter = none :=
  C10_panic_domain PM02 (by intro k hk; interval_cases k <;> norm_num [PM02])
    rfl (-1) negReading 0 none sampleWriter (by decide)
